import Mathlib

/-!
Verification development for the smart-home bot repository.

Shallow embedding of the command-dispatch core: device adapters
(`devices/base_device.py`, `devices/light_controller.py`,
`devices/tv_controller.py`, `devices/vacuum_controller.py`), the access
controller (`services/auth_service.py`), the rate limiter
(`utils/decorators.py`) and the natural-language intent parser
(`utils/validators.py`).  Time is modelled by natural-number seconds;
simulated network calls that the source always answers with success are
modelled as succeeding.
-/

namespace SmartHome

/-! ### Vacuum adapter (`devices/vacuum_controller.py`) -/

/-- Vacuum states.  The source stores the state as a string; the strings it
ever assigns are exactly "charging", "cleaning", "returning", "paused" and
"idle" (the initial value is "charging"). -/
inductive VacState where
  | charging
  | cleaning
  | returning
  | paused
  | idle
deriving DecidableEq, Repr

/-- The mutable `vacuum_status` dictionary of `XiaomiVacuumController`
(numeric fields only; `error_code` is never written and `last_updated` is a
wall-clock string irrelevant to the claims). -/
structure VacuumStatus where
  state : VacState
  battery : Nat
  clean_time : Nat
  clean_area : Nat
  fan_power : Int
deriving DecidableEq, Repr

/-- Initial vacuum status from `XiaomiVacuumController.__init__`. -/
def vacuumInit : VacuumStatus :=
  { state := .charging, battery := 100, clean_time := 0, clean_area := 0,
    fan_power := 100 }

/-- `XiaomiVacuumController.start_cleaning`.  `_send_command` is simulated
in the source and always reports success. -/
def start_cleaning (v : VacuumStatus) : Bool × VacuumStatus :=
  if v.state = .cleaning then
    (true, v)
  else
    (true, { v with state := .cleaning, clean_time := 0, clean_area := 0 })

/-- `XiaomiVacuumController.pause_cleaning`. -/
def pause_cleaning (v : VacuumStatus) : Bool × VacuumStatus :=
  if v.state ≠ .cleaning then
    (false, v)
  else
    (true, { v with state := .paused })

/-- `XiaomiVacuumController.stop_cleaning`. -/
def stop_cleaning (v : VacuumStatus) : Bool × VacuumStatus :=
  if v.state ≠ .cleaning ∧ v.state ≠ .paused then
    (false, v)
  else
    (true, { v with state := .idle })

/-- `XiaomiVacuumController.return_to_dock`. -/
def return_to_dock (v : VacuumStatus) : Bool × VacuumStatus :=
  if v.state = .charging then
    (true, v)
  else
    (true, { v with state := .returning })

/-- `XiaomiVacuumController.set_fan_power`: the percentage is validated to
[0,100]; the stored value is the user percentage (the vendor tier
`max(38, min(100, power))` is only sent to the device). -/
def set_fan_power (v : VacuumStatus) (power : Int) : Bool × VacuumStatus :=
  if 0 ≤ power ∧ power ≤ 100 then
    (true, { v with fan_power := power })
  else
    (false, v)

/-- `XiaomiVacuumController._update_status`: the simulated periodic status
tick.  While cleaning the battery drains with floor 20 and the counters
grow; while charging the battery gains with cap 100. -/
def update_status (v : VacuumStatus) : VacuumStatus :=
  if v.state = .cleaning then
    { v with battery := max 20 (v.battery - 1),
             clean_time := v.clean_time + 1,
             clean_area := v.clean_area + 2 }
  else if v.state = .charging then
    { v with battery := min 100 (v.battery + 2) }
  else
    v

/-- One vacuum-facing operation: the commands of the controller plus the
simulated status tick (`find_vacuum` does not touch the status). -/
inductive VacOp where
  | start
  | pause
  | stop
  | dock
  | setFanPower (p : Int)
  | tick
deriving Repr

/-- Apply one vacuum operation to the status (command results discarded). -/
def applyVacOp (v : VacuumStatus) : VacOp → VacuumStatus
  | .start => (start_cleaning v).2
  | .pause => (pause_cleaning v).2
  | .stop => (stop_cleaning v).2
  | .dock => (return_to_dock v).2
  | .setFanPower p => (set_fan_power v p).2
  | .tick => update_status v

/-- Apply a sequence of vacuum operations from left to right. -/
def applyVacOps (v : VacuumStatus) (ops : List VacOp) : VacuumStatus :=
  ops.foldl applyVacOp v

lemma battery_bounds_step (v : VacuumStatus)
    (h : 20 ≤ v.battery ∧ v.battery ≤ 100) (op : VacOp) :
    20 ≤ (applyVacOp v op).battery ∧ (applyVacOp v op).battery ≤ 100 := by
  obtain ⟨h1, h2⟩ := h
  cases op <;>
    simp only [applyVacOp, start_cleaning, pause_cleaning, stop_cleaning,
      return_to_dock, set_fan_power, update_status]
  case start => split <;> simp [h1, h2]
  case pause => split <;> simp [h1, h2]
  case stop => split <;> simp [h1, h2]
  case dock => split <;> simp [h1, h2]
  case setFanPower p => split <;> simp [h1, h2]
  case tick =>
    split
    · constructor
      · simp
      · simp only [VacuumStatus.battery]
        omega
    · split
      · simp only [VacuumStatus.battery]
        omega
      · exact ⟨h1, h2⟩

lemma battery_invariant_aux (ops : List VacOp) (v : VacuumStatus)
    (h : 20 ≤ v.battery ∧ v.battery ≤ 100) :
    20 ≤ (applyVacOps v ops).battery ∧ (applyVacOps v ops).battery ≤ 100 := by
  induction ops generalizing v with
  | nil => exact h
  | cons op ops ih =>
    exact ih (applyVacOp v op) (battery_bounds_step v h op)

/-- C10: starting from the vacuum's initial status (battery 100), every
sequence of vacuum commands and simulated status updates keeps the battery
reading within [20,100]: the cleaning drain floors it at 20, the charging
gain caps it at 100, and no other operation writes the battery. -/
theorem vacuum_battery_in_20_100 (ops : List VacOp) :
    20 ≤ (applyVacOps vacuumInit ops).battery ∧
      (applyVacOps vacuumInit ops).battery ≤ 100 :=
  battery_invariant_aux ops vacuumInit (by constructor <;> decide)

/-- C7: `start_cleaning` is the identity success when already cleaning and
otherwise (from charging, idle, paused or returning) moves to cleaning and
resets the elapsed-time and area counters; `pause_cleaning` moves cleaning
to paused and fails, state unchanged, from every other state. -/
theorem vacuum_start_pause_transitions (v : VacuumStatus) :
    start_cleaning v =
      (if v.state = .cleaning then (true, v)
       else (true, { v with state := .cleaning, clean_time := 0,
                            clean_area := 0 })) ∧
    pause_cleaning v =
      (if v.state = .cleaning then (true, { v with state := .paused })
       else (false, v)) := by
  constructor
  · simp [start_cleaning]
  · by_cases h : v.state = .cleaning <;> simp [pause_cleaning, h]

/-! ### Base device (`devices/base_device.py`) -/

/-- The outcome of an awaited `execute_command` call as observed by
`safe_execute`: a boolean return value, a raised exception with its message,
or expiry of the `asyncio.wait_for` timeout. -/
inductive ExecOutcome where
  | ok (b : Bool)
  | err (msg : String)
  | timedOut
deriving DecidableEq, Repr

/-- The `BaseDevice` fields that `safe_execute` reads or writes. -/
structure DeviceFlags where
  is_online : Bool
  last_error : Option String
deriving DecidableEq, Repr

/-- `BaseDevice.safe_execute`.  Offline: return `False` at once.  Result
`result`: return it.  `asyncio.TimeoutError`: record the error string and
return `False` (the online flag is not touched in this branch).  Any other
exception: record the error, set `is_online = False`, return `False`. -/
def safe_execute (d : DeviceFlags) (outcome : ExecOutcome) (command : String) :
    Bool × DeviceFlags :=
  if !d.is_online then
    (false, d)
  else
    match outcome with
    | .ok b => (b, d)
    | .timedOut =>
        (false, { d with last_error := some ("Command timeout: " ++ command) })
    | .err msg =>
        (false, { is_online := false, last_error := some msg })

/-- C2 counterexample: a command that times out on an online adapter leaves
`is_online = true`, while the claim says a timeout marks the adapter
offline. -/
theorem safe_execute_timeout_keeps_online :
    (safe_execute ⟨true, none⟩ .timedOut "start").2.is_online = true := by
  decide

/-- C2 amended: `safe_execute` returns false immediately when the adapter is
offline; on completion it returns the adapter's boolean result; on timeout
it records the error and returns false with the online flag unchanged; on a
thrown error it marks the adapter offline, records the error and returns
false. -/
theorem safe_execute_behaviour (e : Option String) (cmd msg : String)
    (b : Bool) (o : ExecOutcome) :
    safe_execute ⟨false, e⟩ o cmd = (false, ⟨false, e⟩) ∧
    safe_execute ⟨true, e⟩ (.ok b) cmd = (b, ⟨true, e⟩) ∧
    safe_execute ⟨true, e⟩ .timedOut cmd =
      (false, ⟨true, some ("Command timeout: " ++ cmd)⟩) ∧
    safe_execute ⟨true, e⟩ (.err msg) cmd = (false, ⟨false, some msg⟩) := by
  refine ⟨?_, ?_, ?_, ?_⟩ <;> rfl

/-- Closed instance of `safe_execute_behaviour` (its binders are data, not
propositions, but we record a concrete evaluation anyway). -/
theorem safe_execute_behaviour_witness :
    safe_execute ⟨true, none⟩ (.err "boom") "cmd" =
      (false, ⟨false, some "boom"⟩) :=
  (safe_execute_behaviour none "cmd" "boom" true (.ok true)).2.2.2

/-! ### TV adapter (`devices/tv_controller.py`) -/

/-- The `tv_status` fields of `AndroidTVController` relevant to the claims
(`last_updated` is a wall-clock string).  Volume is a Python `int`. -/
structure TVStatus where
  is_on : Bool
  current_app : Option String
  volume : Int
deriving DecidableEq, Repr

/-- Initial TV status from `AndroidTVController.__init__`. -/
def tvInit : TVStatus := { is_on := false, current_app := none, volume := 50 }

/-- Python `str.isdigit` restricted to ASCII decimal digits (the only
volume strings the bot produces). -/
def pyIsDigit (s : String) : Bool := !s.isEmpty && s.data.all Char.isDigit

/-- Value of Python `int(s)` on a string of decimal digits. -/
def digitsVal (s : String) : Nat :=
  s.data.foldl (fun n c => n * 10 + (c.toNat - 48)) 0

/-- `AndroidTVController.control_volume`.  The ADB round trips are simulated
side effects; the status mutation is transcribed exactly: note that the
numeric branch stores `int(action)` without clamping. -/
def control_volume (tv : TVStatus) (action : String) : Bool × TVStatus :=
  if !tv.is_on then
    (false, tv)
  else if action = "up" then
    (true, { tv with volume := min 100 (tv.volume + 5) })
  else if action = "down" then
    (true, { tv with volume := max 0 (tv.volume - 5) })
  else if pyIsDigit action then
    (true, { tv with volume := (digitsVal action : Int) })
  else
    (false, tv)

/-- C3 counterexample: with the TV on, the numeric action "150" stores
volume 150, so the numeric branch is not clamped to [0,100] as the claim
states. -/
theorem control_volume_150_not_clamped :
    (control_volume ⟨true, none, 50⟩ "150").2.volume = 150 ∧
    ¬ (control_volume ⟨true, none, 50⟩ "150").2.volume ≤ 100 := by
  constructor <;> decide

/-- C3 amended: `control_volume` fails with the state unchanged when the TV
is off; when on, "up" and "down" adjust the volume by step 5 clamped to
[0,100], and a literal numeric-string action stores the parsed value
directly, without clamping. -/
theorem control_volume_behaviour (tv : TVStatus) (s : String)
    (hon : tv.is_on = true) (hdigit : pyIsDigit s = true) :
    (∀ a, control_volume { tv with is_on := false } a =
      (false, { tv with is_on := false })) ∧
    control_volume tv "up" =
      (true, { tv with volume := min 100 (tv.volume + 5) }) ∧
    min 100 (tv.volume + 5) ≤ 100 ∧
    control_volume tv "down" =
      (true, { tv with volume := max 0 (tv.volume - 5) }) ∧
    0 ≤ max 0 (tv.volume - 5) ∧
    control_volume tv s = (true, { tv with volume := (digitsVal s : Int) }) := by
  have hup : s ≠ "up" := by rintro rfl; exact absurd hdigit (by decide)
  have hdown : s ≠ "down" := by rintro rfl; exact absurd hdigit (by decide)
  refine ⟨fun a => ?_, ?_, ?_, ?_, ?_, ?_⟩
  · simp [control_volume]
  · simp [control_volume, hon]
  · exact min_le_left _ _
  · simp [control_volume, hon]
  · exact le_max_left _ _
  · simp [control_volume, hon, hup, hdown, hdigit]

/-- Witness for `control_volume_behaviour` at a concrete on-state TV and the
numeric action "7". -/
theorem control_volume_behaviour_witness :
    control_volume ⟨true, none, 50⟩ "7" = (true, ⟨true, none, 7⟩) := by
  have h := control_volume_behaviour ⟨true, none, 50⟩ "7" rfl (by decide)
  simpa [digitsVal] using h.2.2.2.2.2

/-! ### Light adapter (`devices/light_controller.py`) -/

/-- Per-room light record: the `status`/`brightness` entries of the
`lights` dictionary (`device_id` is constant).  Brightness is a Python
`int`. -/
structure LightInfo where
  status : Bool
  brightness : Int
deriving DecidableEq, Repr

/-- The five fixed rooms of the `lights` dictionary. -/
inductive Room where
  | hallway
  | kitchen
  | room
  | bathroom
  | toilet
deriving DecidableEq, Repr

/-- The `lights` dictionary of `XiaomiLightController`, keyed by the five
fixed rooms. -/
structure LightsState where
  hallway : LightInfo
  kitchen : LightInfo
  room : LightInfo
  bathroom : LightInfo
  toilet : LightInfo
deriving DecidableEq, Repr

/-- Initial lights state from `XiaomiLightController.__init__`. -/
def lightsInit : LightsState :=
  { hallway := ⟨false, 100⟩, kitchen := ⟨false, 100⟩, room := ⟨false, 100⟩,
    bathroom := ⟨false, 80⟩, toilet := ⟨false, 60⟩ }

/-- Room lookup by name: `room in self.lights` on the dictionary keys. -/
def roomOf : String → Option Room
  | "hallway" => some .hallway
  | "kitchen" => some .kitchen
  | "room" => some .room
  | "bathroom" => some .bathroom
  | "toilet" => some .toilet
  | _ => none

/-- Read one room's record. -/
def getLight (s : LightsState) : Room → LightInfo
  | .hallway => s.hallway
  | .kitchen => s.kitchen
  | .room => s.room
  | .bathroom => s.bathroom
  | .toilet => s.toilet

/-- Write one room's record. -/
def setLight (s : LightsState) (r : Room) (i : LightInfo) : LightsState :=
  match r with
  | .hallway => { s with hallway := i }
  | .kitchen => { s with kitchen := i }
  | .room => { s with room := i }
  | .bathroom => { s with bathroom := i }
  | .toilet => { s with toilet := i }

/-- `XiaomiLightController.toggle_light`.  The local `status` update happens
before the simulated gateway round trip; `fault` models an injected
exception in that round trip (as in the spec's forced-failure test), which
the handler catches, returning `False` — with the local update already
applied. -/
def toggle_light (s : LightsState) (room : String) (st : Bool)
    (fault : Bool) : Bool × LightsState :=
  match roomOf room with
  | none => (false, s)
  | some r =>
      let s2 := setLight s r { getLight s r with status := st }
      (!fault, s2)

/-- `XiaomiLightController.set_brightness`: unknown room or a value outside
[0,100] fails without touching the state. -/
def set_brightness (s : LightsState) (room : String) (b : Int) :
    Bool × LightsState :=
  match roomOf room with
  | none => (false, s)
  | some r =>
      if 0 ≤ b ∧ b ≤ 100 then
        (true, setLight s r { getLight s r with brightness := b })
      else
        (false, s)

/-- Iteration order of `self.lights.keys()`. -/
def ROOMS : List String := ["hallway", "kitchen", "room", "bathroom", "toilet"]

/-- `XiaomiLightController.toggle_all_lights`: one `toggle_light` per room;
the overall result is `success_count == total_count`, i.e. the conjunction
of the per-room results. -/
def toggle_all_lights (s : LightsState) (st : Bool)
    (fault : String → Bool) : Bool × LightsState :=
  ROOMS.foldl
    (fun acc room =>
      let r := toggle_light acc.2 room st (fault room)
      (acc.1 && r.1, r.2))
    (true, s)

/-- C9: `toggle_all_lights` returns true exactly when every per-room toggle
succeeds; with exactly one failing room the overall result is false even
though every other room's on-state was changed to the requested value. -/
theorem toggle_all_lights_partial_failure (s : LightsState) (st : Bool)
    (r0 : String) (h : r0 ∈ ROOMS) :
    (∀ f : String → Bool,
      (toggle_all_lights s st f).1 =
        (!f "hallway" && !f "kitchen" && !f "room" && !f "bathroom" &&
          !f "toilet")) ∧
    (toggle_all_lights s st (fun r => decide (r = r0))).1 = false ∧
    (r0 ≠ "hallway" →
      (toggle_all_lights s st (fun r => decide (r = r0))).2.hallway.status = st) ∧
    (r0 ≠ "kitchen" →
      (toggle_all_lights s st (fun r => decide (r = r0))).2.kitchen.status = st) ∧
    (r0 ≠ "room" →
      (toggle_all_lights s st (fun r => decide (r = r0))).2.room.status = st) ∧
    (r0 ≠ "bathroom" →
      (toggle_all_lights s st (fun r => decide (r = r0))).2.bathroom.status = st) ∧
    (r0 ≠ "toilet" →
      (toggle_all_lights s st (fun r => decide (r = r0))).2.toilet.status = st) := by
  constructor
  · intro f
    simp [toggle_all_lights, ROOMS, toggle_light, roomOf, setLight, getLight,
      Bool.and_assoc]
  · fin_cases h <;>
      simp [toggle_all_lights, ROOMS, toggle_light, roomOf, setLight, getLight]

/-- Witness for `toggle_all_lights_partial_failure`: the kitchen toggle is
forced to fail from the initial state. -/
theorem toggle_all_lights_partial_failure_witness :
    (toggle_all_lights lightsInit true (fun r => decide (r = "kitchen"))).1
        = false ∧
    (toggle_all_lights lightsInit true
        (fun r => decide (r = "kitchen"))).2.hallway.status = true := by
  have h := toggle_all_lights_partial_failure lightsInit true "kitchen"
    (by decide)
  exact ⟨h.2.1, h.2.2.1 (by decide)⟩

/-! ### Combined adapter state for the range invariant (C4) -/

/-- The three adapters' mutable numeric state side by side. -/
structure HomeState where
  lights : LightsState
  tv : TVStatus
  vacuum : VacuumStatus
deriving Repr

/-- Initial combined state: each adapter as constructed. -/
def homeInit : HomeState := ⟨lightsInit, tvInit, vacuumInit⟩

/-- The adapter operations named by the claim: light `set_brightness`, TV
`control_volume`, vacuum `set_fan_power` and the simulated vacuum status
update. -/
inductive HomeOp where
  | lightSetBrightness (room : String) (b : Int)
  | tvControlVolume (action : String)
  | vacSetFanPower (p : Int)
  | vacTick
deriving Repr

/-- Apply one operation to the combined state (command results
discarded). -/
def applyHomeOp (s : HomeState) : HomeOp → HomeState
  | .lightSetBrightness room b =>
      { s with lights := (set_brightness s.lights room b).2 }
  | .tvControlVolume a => { s with tv := (control_volume s.tv a).2 }
  | .vacSetFanPower p => { s with vacuum := (set_fan_power s.vacuum p).2 }
  | .vacTick => { s with vacuum := update_status s.vacuum }

/-- Apply a sequence of operations from left to right. -/
def applyHomeOps (s : HomeState) (ops : List HomeOp) : HomeState :=
  ops.foldl applyHomeOp s

/-- Every brightness lies in [0,100]. -/
def lightsInRange (l : LightsState) : Prop :=
  (0 ≤ l.hallway.brightness ∧ l.hallway.brightness ≤ 100) ∧
  (0 ≤ l.kitchen.brightness ∧ l.kitchen.brightness ≤ 100) ∧
  (0 ≤ l.room.brightness ∧ l.room.brightness ≤ 100) ∧
  (0 ≤ l.bathroom.brightness ∧ l.bathroom.brightness ≤ 100) ∧
  (0 ≤ l.toilet.brightness ∧ l.toilet.brightness ≤ 100)

/-- The claimed range invariant: brightness, volume, battery and fan power
all within [0,100]. -/
def homeInRange (s : HomeState) : Prop :=
  lightsInRange s.lights ∧
  (0 ≤ s.tv.volume ∧ s.tv.volume ≤ 100) ∧
  s.vacuum.battery ≤ 100 ∧
  (0 ≤ s.vacuum.fan_power ∧ s.vacuum.fan_power ≤ 100)

/-- Strengthened induction invariant: the ranges, the battery floor, and
the fact that none of the four operations ever turns the TV on. -/
def homeAux (s : HomeState) : Prop :=
  homeInRange s ∧ 20 ≤ s.vacuum.battery ∧ s.tv.is_on = false

lemma homeAux_step (s : HomeState) (h : homeAux s) (op : HomeOp) :
    homeAux (applyHomeOp s op) := by
  obtain ⟨⟨hl, hv, hb, hf⟩, hbf, hon⟩ := h
  cases op with
  | lightSetBrightness room b =>
      obtain ⟨h1, h2, h3, h4, h5⟩ := hl
      simp only [applyHomeOp, set_brightness]
      cases hro : roomOf room with
      | none => exact ⟨⟨⟨h1, h2, h3, h4, h5⟩, hv, hb, hf⟩, hbf, hon⟩
      | some r =>
          simp only
          split
          · rename_i hrange
            cases r <;>
              exact ⟨⟨by simp [setLight, lightsInRange, getLight, hrange,
                  h1, h2, h3, h4, h5], hv, hb, hf⟩, hbf, hon⟩
          · exact ⟨⟨⟨h1, h2, h3, h4, h5⟩, hv, hb, hf⟩, hbf, hon⟩
  | tvControlVolume a =>
      simp only [applyHomeOp, control_volume, hon]
      exact ⟨⟨hl, hv, hb, hf⟩, hbf, hon⟩
  | vacSetFanPower p =>
      simp only [applyHomeOp, set_fan_power]
      split
      · rename_i hrange
        exact ⟨⟨hl, hv, hb, ⟨hrange.1, hrange.2⟩⟩, hbf, hon⟩
      · exact ⟨⟨hl, hv, hb, hf⟩, hbf, hon⟩
  | vacTick =>
      simp only [applyHomeOp, update_status]
      split
      · refine ⟨⟨hl, hv, ?_, hf⟩, ?_, hon⟩
        · simp only
          omega
        · simp only
          omega
      · split
        · refine ⟨⟨hl, hv, ?_, hf⟩, ?_, hon⟩
          · simp only
            omega
          · simp only
            omega
        · exact ⟨⟨hl, hv, hb, hf⟩, hbf, hon⟩

lemma homeAux_ops (ops : List HomeOp) (s : HomeState) (h : homeAux s) :
    homeAux (applyHomeOps s ops) := by
  induction ops generalizing s with
  | nil => exact h
  | cons op ops ih => exact ih (applyHomeOp s op) (homeAux_step s h op)

/-- C4: starting from each adapter's initial state, every sequence of the
named adapter operations keeps brightness, battery, volume and fan power
within [0,100]. -/
theorem adapters_range_invariant (ops : List HomeOp) :
    homeInRange (applyHomeOps homeInit ops) :=
  (homeAux_ops ops homeInit
    (by refine ⟨⟨?_, ?_, ?_, ?_⟩, ?_, ?_⟩ <;> simp [homeInit, lightsInit,
      tvInit, vacuumInit, lightsInRange])).1

/-! ### Access controller (`services/auth_service.py`)

Wall-clock instants become natural-number seconds.  The pruning predicate
`attempt > now - lockout_duration` of the source is over real-valued time,
where it is equivalent to `now < attempt + lockout_duration`; we use the
latter form, which is exact on `Nat` as well.  The `failed_attempts`
dictionary becomes an association list with unique keys. -/

/-- `self.lockout_duration` = 15 minutes, in seconds. -/
def lockout_duration : Nat := 900

/-- `self.max_failed_attempts`. -/
def max_failed_attempts : Nat := 5

/-- A Python dictionary from caller id to data. -/
def AuthDict (α : Type) := List (String × α)

/-- Dictionary read with default (absent key behaves as the empty list in
every use below). -/
def lookupAttempts (d : AuthDict (List Nat)) (uid : String) : List Nat :=
  match d.find? (fun p => p.1 == uid) with
  | some p => p.2
  | none => []

/-- Dictionary write (`d[uid] = l`). -/
def setAttempts (d : AuthDict (List Nat)) (uid : String) (l : List Nat) :
    AuthDict (List Nat) :=
  match d with
  | [] => [(uid, l)]
  | (k, v) :: rest =>
      if k = uid then (k, l) :: rest else (k, v) :: setAttempts rest uid l

/-- Dictionary delete (`del d[uid]`, keys unique). -/
def delAttempts (d : AuthDict (List Nat)) (uid : String) :
    AuthDict (List Nat) :=
  match d with
  | [] => []
  | (k, v) :: rest =>
      if k = uid then rest else (k, v) :: delAttempts rest uid

/-- The `AuthService` fields used by `is_user_authorized`. -/
structure AuthServiceState where
  allowed_user_ids : List Int
  allowed_usernames : List String
  failed_attempts : AuthDict (List Nat)

/-- Drop attempts at or beyond the trailing lockout window:
`[a for a in attempts if a > now - lockout_duration]`. -/
def pruneAttempts (now : Nat) (l : List Nat) : List Nat :=
  l.filter (fun t => decide (now < t + lockout_duration))

/-- `AuthService._is_user_locked_out`: absent key → not locked; otherwise
prune the stored attempts in place and report whether at least
`max_failed_attempts` remain. -/
def is_user_locked_out (s : AuthServiceState) (uid : String) (now : Nat) :
    Bool × AuthServiceState :=
  match s.failed_attempts.find? (fun p => p.1 == uid) with
  | none => (false, s)
  | some p =>
      let pruned := pruneAttempts now p.2
      (decide (max_failed_attempts ≤ pruned.length),
       { s with failed_attempts := setAttempts s.failed_attempts uid pruned })

/-- `AuthService._record_failed_attempt`: append `now` (creating the entry
when absent), then prune. -/
def record_failed_attempt (s : AuthServiceState) (uid : String)
    (now : Nat) : AuthServiceState :=
  { s with failed_attempts :=
      (setAttempts s.failed_attempts uid
        (pruneAttempts now (lookupAttempts s.failed_attempts uid ++ [now]))) }

/-- `AuthService._clear_failed_attempts`: delete the entry if present. -/
def clear_failed_attempts (s : AuthServiceState) (uid : String) :
    AuthServiceState :=
  { s with failed_attempts := delAttempts s.failed_attempts uid }

/-- Python truthiness of the optional `username` argument. -/
def usernameTruthy : Option String → Bool
  | none => false
  | some u => !(u = "")

/-- `AuthService.is_user_authorized`: (1) locked out → deny without
recording; (2) a configured id allow-list not containing the id → record
failure, deny; (3) a configured handle allow-list, a truthy handle, and the
handle not in the list → record failure, deny; (4) otherwise clear the
caller's failures and allow. -/
def is_user_authorized (s : AuthServiceState) (user_id : Int)
    (username : Option String) (now : Nat) : Bool × AuthServiceState :=
  let uid := toString user_id
  let locked := is_user_locked_out s uid now
  let s1 := locked.2
  if locked.1 then
    (false, s1)
  else if !s1.allowed_user_ids.isEmpty &&
      !(s1.allowed_user_ids.contains user_id) then
    (false, record_failed_attempt s1 uid now)
  else if (!s1.allowed_usernames.isEmpty && usernameTruthy username) &&
      !(s1.allowed_usernames.contains (username.getD "")) then
    (false, record_failed_attempt s1 uid now)
  else
    (true, clear_failed_attempts s1 uid)

/-- A sequence of `is_user_authorized` calls for one caller, given the
handle and clock reading of each call; returns the verdicts in order and
the final state. -/
def authRun (s : AuthServiceState) (user_id : Int)
    (calls : List (Option String × Nat)) : List Bool × AuthServiceState :=
  calls.foldl
    (fun acc c =>
      let r := is_user_authorized acc.2 user_id c.1 c.2
      (acc.1 ++ [r.1], r.2))
    ([], s)

/-- Reading back a freshly written key. -/
lemma lookup_setAttempts (d : AuthDict (List Nat)) (uid : String)
    (l : List Nat) : lookupAttempts (setAttempts d uid l) uid = l := by
  induction d with
  | nil => simp [setAttempts, lookupAttempts]
  | cons p rest ih =>
      by_cases h : p.1 = uid
      · simp [setAttempts, lookupAttempts, h]
      · simpa [setAttempts, lookupAttempts, h] using ih

/-- C8 counterexample: with a configured handle allow-list and a caller
supplying no handle at all, `is_user_authorized` allows the caller and
records nothing, while the claim says it must record a failure and deny. -/
theorem authorize_no_handle_is_allowed :
    (is_user_authorized ⟨[], ["alice"], []⟩ 7 none 0).1 = true ∧
    (is_user_authorized ⟨[], ["alice"], []⟩ 7 none 0).2.failed_attempts
        = [] := by
  constructor <;> rfl

/-- C8 amended: when a handle allow-list is configured and the caller
supplies a non-empty handle that is not in it, `is_user_authorized` records
a failed attempt and denies; a caller with no handle (or an empty one)
skips the handle check entirely. -/
theorem authorize_handle_not_in_list_denied (s : AuthServiceState)
    (user_id : Int) (u : String) (now : Nat)
    (hlock : (pruneAttempts now
        (lookupAttempts s.failed_attempts (toString user_id))).length <
      max_failed_attempts)
    (hid : s.allowed_user_ids = [] ∨ user_id ∈ s.allowed_user_ids)
    (hns : s.allowed_usernames ≠ []) (hu : u ≠ "")
    (hnotin : u ∉ s.allowed_usernames) :
    (is_user_authorized s user_id (some u) now).1 = false ∧
    lookupAttempts
        (is_user_authorized s user_id (some u) now).2.failed_attempts
        (toString user_id) =
      pruneAttempts now
        (pruneAttempts now
          (lookupAttempts s.failed_attempts (toString user_id)) ++ [now]) := by
  have hns2 : s.allowed_usernames.isEmpty = false := by
    cases h : s.allowed_usernames with
    | nil => exact absurd h hns
    | cons a l => rfl
  cases hf : s.failed_attempts.find? (fun p => p.1 == toString user_id) with
  | none =>
      have hl : lookupAttempts s.failed_attempts (toString user_id) = [] := by
        simp [lookupAttempts, hf]
      rw [hl] at hlock ⊢
      rcases hid with hid | hid <;>
        simp [is_user_authorized, is_user_locked_out, record_failed_attempt,
          usernameTruthy, hf, hl, hid, hns2, hu, hnotin, lookup_setAttempts,
          pruneAttempts]
  | some p =>
      have hl : lookupAttempts s.failed_attempts (toString user_id) = p.2 := by
        simp [lookupAttempts, hf]
      have hnl : ¬ (max_failed_attempts ≤
          (pruneAttempts now p.2).length) := by
        rw [hl] at hlock; omega
      rcases hid with hid | hid <;>
        simp [is_user_authorized, is_user_locked_out, record_failed_attempt,
          usernameTruthy, hf, hl, hid, hns2, hu, hnotin, hnl,
          lookup_setAttempts]

/-- Witness for `authorize_handle_not_in_list_denied`: handle allow-list
["alice"], caller handle "bob". -/
theorem authorize_handle_not_in_list_denied_witness :
    (is_user_authorized ⟨[], ["alice"], []⟩ 7 (some "bob") 3).1 = false ∧
    lookupAttempts
        (is_user_authorized ⟨[], ["alice"], []⟩ 7 (some "bob")
          3).2.failed_attempts "7" =
      pruneAttempts 3 (pruneAttempts 3 (lookupAttempts [] "7") ++ [3]) :=
  authorize_handle_not_in_list_denied ⟨[], ["alice"], []⟩ 7 "bob" 3
    (by decide) (Or.inl rfl) (by decide) (by decide) (by decide)

/-- C5: with a configured handle allow-list, five consecutive failed
authorizations for one caller within the lockout window make a sixth call
denied even with a handle that is in the allow-list, and that sixth call
records no new failure; after the window elapses with no further failures
the caller is evaluated normally again, and the successful authorization
clears the caller's failure history. -/
theorem lockout_after_five_failures
    (ns : List String) (u ugood : String) (user_id : Int)
    (t1 t2 t3 t4 t5 t6 t7 : Nat)
    (hns : ns ≠ []) (hu : u ≠ "") (hun : u ∉ ns)
    (hg : ugood ≠ "") (hgin : ugood ∈ ns)
    (h12 : t1 ≤ t2) (h23 : t2 ≤ t3) (h34 : t3 ≤ t4) (h45 : t4 ≤ t5)
    (h56 : t5 ≤ t6) (hwin : t6 < t1 + lockout_duration)
    (hel : t5 + lockout_duration ≤ t7) :
    (authRun ⟨[], ns, []⟩ user_id
        [(some u, t1), (some u, t2), (some u, t3), (some u, t4), (some u, t5),
         (some ugood, t6), (some ugood, t7)]).1 =
      [false, false, false, false, false, false, true] ∧
    (authRun ⟨[], ns, []⟩ user_id
        [(some u, t1), (some u, t2), (some u, t3), (some u, t4), (some u, t5),
         (some ugood, t6)]).2.failed_attempts =
      (authRun ⟨[], ns, []⟩ user_id
        [(some u, t1), (some u, t2), (some u, t3), (some u, t4),
         (some u, t5)]).2.failed_attempts ∧
    (authRun ⟨[], ns, []⟩ user_id
        [(some u, t1), (some u, t2), (some u, t3), (some u, t4), (some u, t5),
         (some ugood, t6), (some ugood, t7)]).2.failed_attempts = [] := by
  have hns2 : ns.isEmpty = false := by
    cases h : ns with
    | nil => exact absurd h hns
    | cons a l => rfl
  have w11 : t1 < t1 + lockout_duration := by simp [lockout_duration]
  have w21 : t2 < t1 + lockout_duration := by omega
  have w22 : t2 < t2 + lockout_duration := by simp [lockout_duration]
  have w31 : t3 < t1 + lockout_duration := by omega
  have w32 : t3 < t2 + lockout_duration := by omega
  have w33 : t3 < t3 + lockout_duration := by simp [lockout_duration]
  have w41 : t4 < t1 + lockout_duration := by omega
  have w42 : t4 < t2 + lockout_duration := by omega
  have w43 : t4 < t3 + lockout_duration := by omega
  have w44 : t4 < t4 + lockout_duration := by simp [lockout_duration]
  have w51 : t5 < t1 + lockout_duration := by omega
  have w52 : t5 < t2 + lockout_duration := by omega
  have w53 : t5 < t3 + lockout_duration := by omega
  have w54 : t5 < t4 + lockout_duration := by omega
  have w55 : t5 < t5 + lockout_duration := by simp [lockout_duration]
  have w61 : t6 < t1 + lockout_duration := hwin
  have w62 : t6 < t2 + lockout_duration := by omega
  have w63 : t6 < t3 + lockout_duration := by omega
  have w64 : t6 < t4 + lockout_duration := by omega
  have w65 : t6 < t5 + lockout_duration := by omega
  have n71 : ¬ (t7 < t1 + lockout_duration) := by omega
  have n72 : ¬ (t7 < t2 + lockout_duration) := by omega
  have n73 : ¬ (t7 < t3 + lockout_duration) := by omega
  have n74 : ¬ (t7 < t4 + lockout_duration) := by omega
  have n75 : ¬ (t7 < t5 + lockout_duration) := by omega
  have e1 : is_user_authorized ⟨[], ns, []⟩ user_id (some u) t1 =
      (false, ⟨[], ns, [(toString user_id, [t1])]⟩) := by
    simp [is_user_authorized, is_user_locked_out, record_failed_attempt,
      lookupAttempts, setAttempts, pruneAttempts, usernameTruthy,
      hns2, hu, hun, w11]
  have e2 : is_user_authorized ⟨[], ns, [(toString user_id, [t1])]⟩
      user_id (some u) t2 =
      (false, ⟨[], ns, [(toString user_id, [t1, t2])]⟩) := by
    simp [is_user_authorized, is_user_locked_out, record_failed_attempt,
      lookupAttempts, setAttempts, pruneAttempts, usernameTruthy,
      max_failed_attempts, hns2, hu, hun, w21, w22]
  have e3 : is_user_authorized ⟨[], ns, [(toString user_id, [t1, t2])]⟩
      user_id (some u) t3 =
      (false, ⟨[], ns, [(toString user_id, [t1, t2, t3])]⟩) := by
    simp [is_user_authorized, is_user_locked_out, record_failed_attempt,
      lookupAttempts, setAttempts, pruneAttempts, usernameTruthy,
      max_failed_attempts, hns2, hu, hun, w31, w32, w33]
  have e4 : is_user_authorized ⟨[], ns, [(toString user_id, [t1, t2, t3])]⟩
      user_id (some u) t4 =
      (false, ⟨[], ns, [(toString user_id, [t1, t2, t3, t4])]⟩) := by
    simp [is_user_authorized, is_user_locked_out, record_failed_attempt,
      lookupAttempts, setAttempts, pruneAttempts, usernameTruthy,
      max_failed_attempts, hns2, hu, hun, w41, w42, w43, w44]
  have e5 : is_user_authorized
      ⟨[], ns, [(toString user_id, [t1, t2, t3, t4])]⟩ user_id (some u) t5 =
      (false, ⟨[], ns, [(toString user_id, [t1, t2, t3, t4, t5])]⟩) := by
    simp [is_user_authorized, is_user_locked_out, record_failed_attempt,
      lookupAttempts, setAttempts, pruneAttempts, usernameTruthy,
      max_failed_attempts, hns2, hu, hun, w51, w52, w53, w54, w55]
  have e6 : is_user_authorized
      ⟨[], ns, [(toString user_id, [t1, t2, t3, t4, t5])]⟩ user_id
      (some ugood) t6 =
      (false, ⟨[], ns, [(toString user_id, [t1, t2, t3, t4, t5])]⟩) := by
    simp [is_user_authorized, is_user_locked_out, setAttempts,
      pruneAttempts, max_failed_attempts,
      w61, w62, w63, w64, w65]
  have e7 : is_user_authorized
      ⟨[], ns, [(toString user_id, [t1, t2, t3, t4, t5])]⟩ user_id
      (some ugood) t7 =
      (true, ⟨[], ns, []⟩) := by
    simp [is_user_authorized, is_user_locked_out, clear_failed_attempts,
      delAttempts, setAttempts, pruneAttempts, usernameTruthy,
      max_failed_attempts, hns2, hg, hgin, n71, n72, n73, n74, n75]
  refine ⟨?_, ?_, ?_⟩ <;>
    simp only [authRun, List.foldl_cons, List.foldl_nil,
      e1, e2, e3, e4, e5, e6, e7, List.append_assoc, List.nil_append,
      List.cons_append]

/-- Witness for `lockout_after_five_failures` at concrete parameters. -/
theorem lockout_after_five_failures_witness :
    (authRun ⟨[], ["alice"], []⟩ 7
        [(some "bob", 0), (some "bob", 1), (some "bob", 2), (some "bob", 3),
         (some "bob", 4), (some "alice", 5), (some "alice", 904)]).1 =
      [false, false, false, false, false, false, true] :=
  (lockout_after_five_failures ["alice"] "bob" "alice" 7 0 1 2 3 4 5 904
    (by decide) (by decide) (by decide) (by decide) (by decide)
    (by decide) (by decide) (by decide) (by decide) (by decide)
    (by decide) (by decide)).1

/-! ### Rate limiter (`utils/decorators.py`)

`time.time()` readings become natural-number seconds; the drop predicate
`t < now - period` is transcribed literally (truncated subtraction on `Nat`
agrees with the real-valued comparison since recorded times are
nonnegative).  The `defaultdict(deque)` becomes the same association-list
dictionary used above, with absent keys read as the empty deque. -/

/-- The `RateLimiter` class state. -/
structure RateLimiter where
  requests : Nat
  period : Nat
  clients : AuthDict (List Nat)

/-- The `while client_requests and client_requests[0] < now - period:
popleft()` loop: drop old timestamps from the front. -/
def dropOld (period now : Nat) : List Nat → List Nat
  | [] => []
  | t :: ts => if t < now - period then dropOld period now ts else t :: ts

/-- `RateLimiter.is_allowed`: drop old entries from the caller's deque;
allow and record `now` when the remaining count is below the quota,
otherwise deny without recording. -/
def is_allowed (rl : RateLimiter) (client_id : String) (now : Nat) :
    Bool × RateLimiter :=
  let reqs := dropOld rl.period now (lookupAttempts rl.clients client_id)
  if reqs.length < rl.requests then
    (true, { rl with clients :=
      (setAttempts rl.clients client_id (reqs ++ [now])) })
  else
    (false, { rl with clients := setAttempts rl.clients client_id reqs })

/-- A sequence of `is_allowed` calls for one caller at the given clock
readings; returns the verdicts in order and the final state. -/
def rateRun (rl : RateLimiter) (client_id : String) (times : List Nat) :
    List Bool × RateLimiter :=
  times.foldl
    (fun acc t =>
      let r := is_allowed acc.2 client_id t
      (acc.1 ++ [r.1], r.2))
    ([], rl)

/-- On a chronologically ordered deque, the front-dropping loop removes
exactly the timestamps older than `now - period`. -/
lemma dropOld_eq_filter (p now : Nat) (l : List Nat)
    (hs : List.Pairwise (· ≤ ·) l) :
    dropOld p now l = l.filter (fun t => !decide (t < now - p)) := by
  induction l with
  | nil => simp [dropOld]
  | cons h t ih =>
      obtain ⟨hall, ht⟩ := List.pairwise_cons.mp hs
      by_cases hh : h < now - p
      · simp [dropOld, hh, ih ht]
      · have hkeep : List.filter (fun t => !decide (t < now - p)) t = t := by
          refine List.filter_eq_self.mpr ?_
          intro x hx
          have hx2 : ¬ (x < now - p) := fun hlt =>
            hh (lt_of_le_of_lt (hall x hx) hlt)
          simp [hx2]
        simp [dropOld, hh, hkeep]

/-- C6: each `is_allowed` call first drops the timestamps older than
`now - period`; when the remaining count is below the quota it records
`now` and allows, otherwise it denies without recording.  With quota 3 and
period 60, four calls within one second yield
[true, true, true, false], and once the window has fully elapsed a further
call is allowed again. -/
theorem rate_limiter_behaviour (rl : RateLimiter) (cid : String)
    (now t1 t2 t3 t4 t5 : Nat)
    (hs : List.Pairwise (· ≤ ·) (lookupAttempts rl.clients cid))
    (h12 : t1 ≤ t2) (h23 : t2 ≤ t3) (h34 : t3 ≤ t4) (hsec : t4 ≤ t1 + 1)
    (hgap : t3 + 60 < t5) :
    (is_allowed rl cid now).1 = decide
      (((lookupAttempts rl.clients cid).filter
        (fun t => !decide (t < now - rl.period))).length < rl.requests) ∧
    lookupAttempts (is_allowed rl cid now).2.clients cid =
      (if ((lookupAttempts rl.clients cid).filter
          (fun t => !decide (t < now - rl.period))).length < rl.requests then
        ((lookupAttempts rl.clients cid).filter
          (fun t => !decide (t < now - rl.period))) ++ [now]
      else
        ((lookupAttempts rl.clients cid).filter
          (fun t => !decide (t < now - rl.period)))) ∧
    (rateRun ⟨3, 60, []⟩ cid [t1, t2, t3, t4]).1 =
      [true, true, true, false] ∧
    (is_allowed (rateRun ⟨3, 60, []⟩ cid [t1, t2, t3, t4]).2 cid t5).1 =
      true := by
  have hd21 : ¬ (t1 < t2 - 60) := by omega
  have hd31 : ¬ (t1 < t3 - 60) := by omega
  have hd32 : ¬ (t2 < t3 - 60) := by omega
  have hd41 : ¬ (t1 < t4 - 60) := by omega
  have hd42 : ¬ (t2 < t4 - 60) := by omega
  have hd43 : ¬ (t3 < t4 - 60) := by omega
  have hd51 : t1 < t5 - 60 := by omega
  have hd52 : t2 < t5 - 60 := by omega
  have hd53 : t3 < t5 - 60 := by omega
  refine ⟨?_, ?_, ?_, ?_⟩
  · rw [is_allowed, dropOld_eq_filter rl.period now _ hs]
    by_cases hlen : ((lookupAttempts rl.clients cid).filter
        (fun t => !decide (t < now - rl.period))).length < rl.requests <;>
      simp [hlen]
  · rw [is_allowed, dropOld_eq_filter rl.period now _ hs]
    by_cases hlen : ((lookupAttempts rl.clients cid).filter
        (fun t => !decide (t < now - rl.period))).length < rl.requests <;>
      simp [hlen, lookup_setAttempts]
  · simp [rateRun, is_allowed, dropOld, lookupAttempts, setAttempts,
      hd21, hd31, hd32, hd41, hd42, hd43]
  · simp [rateRun, is_allowed, dropOld, lookupAttempts, setAttempts,
      hd21, hd31, hd32, hd41, hd42, hd43, hd51, hd52, hd53]

/-- Witness for `rate_limiter_behaviour` at concrete parameters. -/
theorem rate_limiter_behaviour_witness :
    (rateRun ⟨3, 60, []⟩ "u1" [100, 100, 100, 101]).1 =
      [true, true, true, false] :=
  (rate_limiter_behaviour ⟨3, 60, []⟩ "u1" 0 100 100 100 101 161
    (by decide) (by decide) (by decide) (by decide) (by decide)
    (by decide)).2.2.1

/-! ### Intent parser (`utils/validators.py`)

`str.lower` is modelled for ASCII and the Russian alphabet (the alphabets
of every vocabulary word); Python substring tests (`needle in hay`) are
modelled over character lists.  The parsed dictionaries of the source have
varying key sets; `Intent` carries every possible key, an absent key being
`none`.  `CommandValidator.ROOM_MAPPING` in the source writes the
"туалет" entry as `RoomType.TOILET.value.value`, which raises
`AttributeError` when the class body runs; the table below records the
evidently intended string "toilet". -/

/-- `str.lower` on one character: ASCII A-Z, Cyrillic А-Я and Ё. -/
def lowerChar (c : Char) : Char :=
  if 'A' ≤ c ∧ c ≤ 'Z' then Char.ofNat (c.toNat + 32)
  else if 0x410 ≤ c.toNat ∧ c.toNat ≤ 0x42F then Char.ofNat (c.toNat + 0x20)
  else if c.toNat = 0x401 then Char.ofNat 0x451
  else c

/-- `str.lower` on a string. -/
def lowerStr (s : String) : String := String.mk (s.data.map lowerChar)

/-- Whether the first list starts the second. -/
def begins : List Char → List Char → Bool
  | [], _ => true
  | _ :: _, [] => false
  | a :: as, b :: bs => a = b && begins as bs

/-- Whether the first list occurs inside the second (Python `in`). -/
def hasSub (needle : List Char) : List Char → Bool
  | [] => begins needle []
  | c :: t => begins needle (c :: t) || hasSub needle t

/-- Python `needle in hay` on strings. -/
def strIn (needle hay : String) : Bool := hasSub needle.data hay.data

/-- Python `any(word in hay for word in words)`. -/
def anyIn (words : List String) (hay : String) : Bool :=
  words.any (fun w => strIn w hay)

/-- Python `str.strip`. -/
def pyStrip (s : String) : String :=
  String.mk
    (((s.data.dropWhile Char.isWhitespace).reverse.dropWhile
      Char.isWhitespace).reverse)

/-- A parsed command dictionary; absent keys are `none`. -/
structure Intent where
  device_type : Option String
  action : Option String
  room : Option String
  brightness : Option Nat
deriving DecidableEq, Repr

/-- The `{}` returned on no match. -/
def emptyIntent : Intent :=
  { device_type := none, action := none, room := none, brightness := none }

/-- `CommandValidator.ROOM_MAPPING` in insertion order. -/
def ROOM_MAPPING : List (String × String) :=
  [("прихожая", "hallway"), ("коридор", "hallway"), ("hallway", "hallway"),
   ("кухня", "kitchen"), ("kitchen", "kitchen"),
   ("комната", "room"), ("зал", "room"), ("room", "room"),
   ("ванная", "bathroom"), ("bathroom", "bathroom"),
   ("туалет", "toilet"), ("toilet", "toilet"),
   ("весь", "all"), ("all", "all"), ("все", "all")]

/-- `CommandValidator.TV_ACTION_MAPPING` in insertion order. -/
def TV_ACTION_MAPPING : List (String × String) :=
  [("включить", "on"), ("on", "on"), ("выключить", "off"), ("off", "off"),
   ("нетфликс", "netflix"), ("netflix", "netflix"),
   ("ютуб", "youtube"), ("youtube", "youtube"),
   ("громче", "volume_up"), ("volume_up", "volume_up"),
   ("тише", "volume_down"), ("volume_down", "volume_down")]

/-- `CommandValidator.VACUUM_ACTION_MAPPING` in insertion order. -/
def VACUUM_ACTION_MAPPING : List (String × String) :=
  [("начать", "start"), ("start", "start"), ("уборку", "start"),
   ("убраться", "start"),
   ("база", "dock"), ("dock", "dock"), ("домой", "dock"),
   ("статус", "status"), ("status", "status"),
   ("пауза", "pause"), ("pause", "pause")]

/-- Longest run of decimal digits at the front. -/
def digitsPrefix : List Char → List Char
  | [] => []
  | c :: t => if c.isDigit then c :: digitsPrefix t else []

/-- Numeric value of a run of decimal digits. -/
def natOfDigits (ds : List Char) : Nat :=
  ds.foldl (fun n c => n * 10 + (c.toNat - 48)) 0

/-- First match of the regex `(\d+)%`: the value of the first maximal digit
run that is immediately followed by a percent sign. -/
def findPercentNumber : List Char → Option Nat
  | [] => none
  | c :: t =>
      if c.isDigit then
        let ds := digitsPrefix (c :: t)
        match (c :: t).drop ds.length with
        | '%' :: _ => some (natOfDigits ds)
        | _ => findPercentNumber t
      else findPercentNumber t

/-- `CommandValidator.validate_brightness` on an already-numeric value. -/
def validate_brightness (v : Nat) : Option Nat :=
  if v ≤ 100 then some v else none

/-- `NaturalLanguageProcessor.parse_light_command`. -/
def parse_light_command (text : String) : Intent :=
  let tl := lowerStr text
  let action :=
    if anyIn ["включи", "включить", "on", "включен"] tl then some "on"
    else if anyIn ["выключи", "выключить", "off", "выключен"] tl then
      some "off"
    else none
  let room := (ROOM_MAPPING.find? (fun p => strIn p.1 tl)).map (fun p => p.2)
  let brightness :=
    match findPercentNumber text.data with
    | some v => validate_brightness v
    | none => none
  { device_type := some "light", action := action, room := room,
    brightness := brightness }

/-- `NaturalLanguageProcessor.parse_tv_command`. -/
def parse_tv_command (text : String) : Intent :=
  let tl := lowerStr text
  { device_type := some "tv",
    action := (TV_ACTION_MAPPING.find? (fun p => strIn p.1 tl)).map
      (fun p => p.2),
    room := none, brightness := none }

/-- `NaturalLanguageProcessor.parse_vacuum_command`. -/
def parse_vacuum_command (text : String) : Intent :=
  let tl := lowerStr text
  { device_type := some "vacuum",
    action := (VACUUM_ACTION_MAPPING.find? (fun p => strIn p.1 tl)).map
      (fun p => p.2),
    room := none, brightness := none }

/-- `NaturalLanguageProcessor.parse_status_command`. -/
def parse_status_command (text : String) : Intent :=
  if anyIn ["статус", "status", "состояние"] (lowerStr text) then
    { device_type := some "status", action := none, room := none,
      brightness := none }
  else emptyIntent

/-- `NaturalLanguageProcessor.parse_command`. -/
def parse_command (text : String) : Intent :=
  let t := pyStrip text
  let tl := lowerStr t
  if anyIn ["свет", "light"] tl then parse_light_command t
  else if anyIn ["телевизор", "tv", "телек"] tl then parse_tv_command t
  else if anyIn ["пылесос", "vacuum", "робот"] tl then parse_vacuum_command t
  else if anyIn ["статус", "status", "состояние"] tl then
    parse_status_command t
  else emptyIntent

/-- C1: evaluation of the parser at the specification's three examples.
The second and third agree with the specification, but the first yields
`room = none` — the room synonym table stores the nominative "кухня",
which is not a substring of the prepositional "кухне", so the parser never
recognises the room, although the repository's own test asserts
`room == "kitchen"` for exactly this phrasing. -/
theorem parse_command_examples :
    parse_command "включи свет на кухне" =
      { device_type := some "light", action := some "on", room := none,
        brightness := none } ∧
    parse_command "покажи статус" =
      { device_type := some "status", action := none, room := none,
        brightness := none } ∧
    parse_command "абракадabra" = emptyIntent := by
  refine ⟨?_, ?_, ?_⟩ <;> rfl

end SmartHome
